import Mathlib

/-!
# SLAPI model headers: attribute dictionaries, faces, rendering options

A verification development over the three public C headers
`slapi/model/attribute_dictionary.h`, `slapi/model/face.h` and
`slapi/model/rendering_options.h`.  The headers consist of prototypes and
their documentation comments; the definitions below transcribe them as data
(one record per prototype, one entry per `@param` and per `@return` item, one
row per table line), and the theorems are statements about that data.
-/

namespace Slapi

/-! ## Rendering options (`rendering_options.h`) -/

/-- The table "Rendering Option | Value Type" in the documentation of
`SURenderingOptionsGetValue` (rendering_options.h, lines 48-105): one pair per
table line, in the order of the header. -/
def renderingOptionTable : List (String × String) :=
  [
    ("BackgroundColor", "SUTypedValueType_Color"),
    ("BandColor", "SUTypedValueType_Color"),
    ("ConstructionColor", "SUTypedValueType_Color"),
    ("DepthQueWidth", "SUTypedValueType_Int32"),
    ("DisplayColorByLayer", "SUTypedValueType_Bool"),
    ("DisplayDims", "SUTypedValueType_Bool"),
    ("DisplayFog", "SUTypedValueType_Bool"),
    ("DisplayInstanceAxes", "SUTypedValueType_Bool"),
    ("DisplaySketchAxes", "SUTypedValueType_Bool"),
    ("DisplayText", "SUTypedValueType_Bool"),
    ("DisplayWatermarks", "SUTypedValueType_Bool"),
    ("DrawDepthQue", "SUTypedValueType_Bool"),
    ("DrawGround", "SUTypedValueType_Bool"),
    ("DrawHidden", "SUTypedValueType_Bool"),
    ("DrawHorizon", "SUTypedValueType_Bool"),
    ("DrawLineEnds", "SUTypedValueType_Bool"),
    ("DrawProfilesOnly", "SUTypedValueType_Bool"),
    ("DrawSilhouettes", "SUTypedValueType_Bool"),
    ("DrawUnderground", "SUTypedValueType_Bool"),
    ("EdgeColorMode", "SUTypedValueType_Int32"),
    ("EdgeDisplayMode", "SUTypedValueType_Int32"),
    ("EdgeType", "SUTypedValueType_Int32"),
    ("ExtendLines", "SUTypedValueType_Bool"),
    ("FaceBackColor", "SUTypedValueType_Color"),
    ("FaceColorMode", "SUTypedValueType_Int32"),
    ("FaceFrontColor", "SUTypedValueType_Color"),
    ("FogColor", "SUTypedValueType_Color"),
    ("FogEndDist", "SUTypedValueType_Double"),
    ("FogStartDist", "SUTypedValueType_Double"),
    ("FogUseBkColor", "SUTypedValueType_Bool"),
    ("ForegroundColor", "SUTypedValueType_Color"),
    ("GroundColor", "SUTypedValueType_Color"),
    ("GroundTransparency", "SUTypedValueType_Int32"),
    ("HideConstructionGeometry", "SUTypedValueType_Bool"),
    ("HighlightColor", "SUTypedValueType_Color"),
    ("HorizonColor", "SUTypedValueType_Color"),
    ("InactiveFade", "SUTypedValueType_Double"),
    ("InactiveHidden", "SUTypedValueType_Bool"),
    ("InstanceFade", "SUTypedValueType_Double"),
    ("InstanceHidden", "SUTypedValueType_Bool"),
    ("JitterEdges", "SUTypedValueType_Bool"),
    ("LineEndWidth", "SUTypedValueType_Int32"),
    ("LineExtension", "SUTypedValueType_Int32"),
    ("LockedColor", "SUTypedValueType_Color"),
    ("MaterialTransparency", "SUTypedValueType_Bool"),
    ("ModelTransparency", "SUTypedValueType_Bool"),
    ("RenderMode", "SUTypedValueType_Int32"),
    ("SectionActiveColor", "SUTypedValueType_Color"),
    ("SectionCutWidth", "SUTypedValueType_Int32"),
    ("SectionDefaultCutColor", "SUTypedValueType_Color"),
    ("SectionInactiveColor", "SUTypedValueType_Color"),
    ("ShowViewName", "SUTypedValueType_Bool"),
    ("SilhouetteWidth", "SUTypedValueType_Int32"),
    ("SkyColor", "SUTypedValueType_Color"),
    ("Texture", "SUTypedValueType_Bool"),
    ("TransparencySort", "SUTypedValueType_Int32") ]

/-- The value type the option table gives for a rendering option name: the
first row with that name. -/
def renderingOptionValueType (name : String) : Option String :=
  renderingOptionTable.lookup name

/-- The typed-value kinds that the option table uses. -/
def renderingValueKinds : List String :=
  ["SUTypedValueType_Color", "SUTypedValueType_Int32", "SUTypedValueType_Bool",
   "SUTypedValueType_Double"]

/-- A line of the table "Option | Value | Meaning" (rendering_options.h, lines
109-126).  The option cell is either an option name or `&nbsp;`, which
continues the option of the line above and is transcribed as `none`. -/
structure EnumRow where
  option : Option String
  value : Nat
  meaning : String

/-- The enumerated-values table of `SURenderingOptionsGetValue`, line by line. -/
def renderingEnumTable : List EnumRow :=
  [
    ⟨some "EdgeColorMode", 0, "ObjectColor"⟩,
    ⟨none, 1, "ForegroundColor"⟩,
    ⟨none, 2, "DirectionColor"⟩,
    ⟨some "EdgeDisplayMode", 0, "EdgeDisplayNone"⟩,
    ⟨none, 1, "EdgeDisplayAll"⟩,
    ⟨none, 2, "EdgeDisplayStandalone"⟩,
    ⟨some "RenderMode", 0, "RenderWireframe"⟩,
    ⟨none, 1, "RenderHidden"⟩,
    ⟨none, 2, "RenderFlat"⟩,
    ⟨none, 3, "RenderSmooth"⟩,
    ⟨none, 4, "RenderTextureObsolete"⟩,
    ⟨none, 5, "RenderNoMaterials"⟩,
    ⟨some "FaceColorMode", 0, "TwoSided"⟩,
    ⟨none, 1, "OneSided"⟩,
    ⟨some "EdgeType", 0, "EdgeStandard"⟩,
    ⟨none, 1, "EdgeNPR"⟩ ]

/-- The values of the `&nbsp;` lines at the front of a list of table lines. -/
def continuationValues : List EnumRow → List Nat
  | [] => []
  | r :: rs =>
    match r.option with
    | none => r.value :: continuationValues rs
    | some _ => []

/-- Reads the enumerated-values table: every line that names an option opens
a group holding its own value and the values of the `&nbsp;` lines that
follow it. -/
def enumValues : List EnumRow → List (String × List Nat)
  | [] => []
  | r :: rs =>
    match r.option with
    | some n => (n, r.value :: continuationValues rs) :: enumValues rs
    | none => enumValues rs

/-! ## Prototypes and their documentation -/

/-- The direction tag of a documented parameter: `@param[in]` or
`@param[out]`. -/
inductive ParamDir
  | input
  | output
  deriving DecidableEq, Repr

/-- How the prototype declares a parameter: by value (`T x`), through a
pointer (`T* x`) or as an array (`T x[]`). -/
inductive Shape
  | byValue
  | pointer
  | array
  deriving DecidableEq, Repr

/-- One parameter of a prototype: its name, the tag of its `@param` line, the
declared type without the pointer or array marker, and that marker. -/
structure Param where
  name : String
  dir : ParamDir
  ctype : String
  shape : Shape

/-- The condition that an item of a `@return` list attaches to its result
code.  Parameters are referred to by name, as in the header. -/
inductive Cond
  /-- Reads "on success". -/
  | onSuccess
  /-- Reads "if a (or b) is NULL". -/
  | isNull (ps : List String)
  /-- Reads "if a (or b) is not a valid object" or "is an invalid object". -/
  | notValidObject (ps : List String)
  /-- Reads "if p contains invalid input data". -/
  | invalidInputData (p : String)
  /-- Reads "if the points specified by p do not lie on a plane within the
  given tolerance". -/
  | notPlanar (p : String) (tolerance : ℚ)
  /-- Reads "if p already refers to a valid object". -/
  | refersToValid (p : String)
  /-- Reads "if the face object is not associated with a parent component". -/
  | noParentComponent (p : String)
  /-- Reads "if there is no value associated with the given key in the
  dictionary". -/
  | noValueForKey (dict key : String)
  /-- Reads "if face does not have a textured material applied to its front"
  (`front = true`) or "to its back" (`front = false`). -/
  | noTexturedMaterial (p : String) (front : Bool)

/-- One `\ref SU_ERROR_...` item of a `@return` list: the result code as it is
spelled in the header, and the condition that follows it. -/
structure ReturnEntry where
  code : String
  cond : Cond

/-- One prototype with its documentation comment: the header it is declared
in, its name, the declared return type, the parameters in prototype order,
the reference type that the `@return` text says is returned (for the
conversion functions, whose `@return` list names no result code), and the
result-code items of the `@return` list in the order of the header. -/
structure FunctionDecl where
  header : String
  name : String
  retType : String
  params : List Param
  docReturnsRef : Option String
  returns : List ReturnEntry

/-! ### `attribute_dictionary.h` -/

/-- Prototype at attribute_dictionary.h, lines 20-31. -/
def SUAttributeDictionaryGetName : FunctionDecl :=
  ⟨"attribute_dictionary.h", "SUAttributeDictionaryGetName", "SU_RESULT",
   [⟨"dictionary", .input, "SUAttributeDictionaryRef", .byValue⟩,
    ⟨"name", .output, "SUStringRef", .pointer⟩],
   none,
   [⟨"SU_ERROR_NONE", .onSuccess⟩,
    ⟨"SU_ERROR_INVALID_INPUT", .notValidObject ["dictionary"]⟩,
    ⟨"SU_ERROR_NULL_POINTER_OUTPUT", .isNull ["name"]⟩,
    ⟨"SU_ERROR_INVALID_OUTPUT", .notValidObject ["name"]⟩]⟩

/-- Prototype at attribute_dictionary.h, lines 33-46. -/
def SUAttributeDictionarySetValue : FunctionDecl :=
  ⟨"attribute_dictionary.h", "SUAttributeDictionarySetValue", "SU_RESULT",
   [⟨"dictionary", .input, "SUAttributeDictionaryRef", .byValue⟩,
    ⟨"key", .input, "const char", .pointer⟩,
    ⟨"value_in", .input, "SUTypedValueRef", .byValue⟩],
   none,
   [⟨"SU_ERROR_NONE", .onSuccess⟩,
    ⟨"SU_ERROR_INVALID_INPUT", .notValidObject ["dictionary", "value_in"]⟩,
    ⟨"SU_ERROR_NULL_POINTER_INPUT", .isNull ["key"]⟩]⟩

/-- Prototype at attribute_dictionary.h, lines 48-67. -/
def SUAttributeDictionaryGetValue : FunctionDecl :=
  ⟨"attribute_dictionary.h", "SUAttributeDictionaryGetValue", "SU_RESULT",
   [⟨"dictionary", .input, "SUAttributeDictionaryRef", .byValue⟩,
    ⟨"key", .input, "const char", .pointer⟩,
    ⟨"value_out", .output, "SUTypedValueRef", .pointer⟩],
   none,
   [⟨"SU_ERROR_NONE", .onSuccess⟩,
    ⟨"SU_ERROR_INVALID_INPUT", .notValidObject ["dictionary"]⟩,
    ⟨"SU_ERROR_NULL_POINTER_INPUT", .isNull ["key"]⟩,
    ⟨"SU_ERROR_NULL_POINTER_OUTPUT", .isNull ["value_out"]⟩,
    ⟨"SU_ERROR_INVALID_OUTPUT", .notValidObject ["value_out"]⟩,
    ⟨"SU_ERROR_NO_DATA", .noValueForKey "dictionary" "key"⟩]⟩

/-- Prototype at attribute_dictionary.h, lines 69-79. -/
def SUAttributeDictionaryGetNumKeys : FunctionDecl :=
  ⟨"attribute_dictionary.h", "SUAttributeDictionaryGetNumKeys", "SU_RESULT",
   [⟨"dictionary", .input, "SUAttributeDictionaryRef", .byValue⟩,
    ⟨"count", .output, "size_t", .pointer⟩],
   none,
   [⟨"SU_ERROR_NONE", .onSuccess⟩,
    ⟨"SU_ERROR_INVALID_INPUT", .notValidObject ["dictionary"]⟩,
    ⟨"SU_ERROR_NULL_POINTER_OUTPUT", .isNull ["count"]⟩]⟩

/-- Prototype at attribute_dictionary.h, lines 81-95. -/
def SUAttributeDictionaryGetKeys : FunctionDecl :=
  ⟨"attribute_dictionary.h", "SUAttributeDictionaryGetKeys", "SU_RESULT",
   [⟨"dictionary", .input, "SUAttributeDictionaryRef", .byValue⟩,
    ⟨"len", .input, "size_t", .byValue⟩,
    ⟨"keys", .output, "SUStringRef", .array⟩,
    ⟨"count", .output, "size_t", .pointer⟩],
   none,
   [⟨"SU_ERROR_NONE", .onSuccess⟩,
    ⟨"SU_ERROR_INVALID_INPUT", .notValidObject ["dictionary"]⟩,
    ⟨"SU_ERROR_NULL_POINTER_OUTPUT", .isNull ["keys", "count"]⟩]⟩

/-! ### `rendering_options.h` -/

/-- Prototype at rendering_options.h, lines 19-32. -/
def SURenderingOptionsSetValue : FunctionDecl :=
  ⟨"rendering_options.h", "SURenderingOptionsSetValue", "SU_RESULT",
   [⟨"rendering_options", .input, "SURenderingOptionsRef", .byValue⟩,
    ⟨"key", .input, "const char", .pointer⟩,
    ⟨"value_in", .input, "SUTypedValueRef", .byValue⟩],
   none,
   [⟨"SU_ERROR_NONE", .onSuccess⟩,
    ⟨"SU_ERROR_INVALID_INPUT", .notValidObject ["rendering_options", "value_in"]⟩,
    ⟨"SU_ERROR_NULL_POINTER_INPUT", .isNull ["key"]⟩]⟩

/-- Prototype at rendering_options.h, lines 34-130. -/
def SURenderingOptionsGetValue : FunctionDecl :=
  ⟨"rendering_options.h", "SURenderingOptionsGetValue", "SU_RESULT",
   [⟨"rendering_options", .input, "SURenderingOptionsRef", .byValue⟩,
    ⟨"key", .input, "const char", .pointer⟩,
    ⟨"value_out", .output, "SUTypedValueRef", .pointer⟩],
   none,
   [⟨"SU_ERROR_NONE", .onSuccess⟩,
    ⟨"SU_ERROR_INVALID_INPUT", .notValidObject ["rendering_options"]⟩,
    ⟨"SU_ERROR_NULL_POINTER_INPUT", .isNull ["key"]⟩,
    ⟨"SU_ERROR_INVALID_OUTPUT", .notValidObject ["value_out"]⟩,
    ⟨"SU_ERROR_NULL_POINTER_OUTPUT", .isNull ["value_out"]⟩]⟩

/-! ### `face.h` -/

/-- Prototype at face.h, lines 19-27. -/
def SUFaceToEntity : FunctionDecl :=
  ⟨"face.h", "SUFaceToEntity", "SUEntityRef",
   [⟨"face", .input, "SUFaceRef", .byValue⟩],
   some "SUEntityRef", []⟩

/-- Prototype at face.h, lines 29-38. -/
def SUFaceFromEntity : FunctionDecl :=
  ⟨"face.h", "SUFaceFromEntity", "SUFaceRef",
   [⟨"entity", .input, "SUEntityRef", .byValue⟩],
   some "SUFaceRef", []⟩

/-- Prototype at face.h, lines 40-48.  The `@return` item reads "The converted
SUEntityRef if face is a valid face". -/
def SUFaceToDrawingElement : FunctionDecl :=
  ⟨"face.h", "SUFaceToDrawingElement", "SUDrawingElementRef",
   [⟨"face", .input, "SUFaceRef", .byValue⟩],
   some "SUEntityRef", []⟩

/-- Prototype at face.h, lines 50-60. -/
def SUFaceFromDrawingElement : FunctionDecl :=
  ⟨"face.h", "SUFaceFromDrawingElement", "SUFaceRef",
   [⟨"drawing_elem", .input, "SUDrawingElementRef", .byValue⟩],
   some "SUFaceRef", []⟩

/-- Prototype at face.h, lines 62-81. -/
def SUFaceCreate : FunctionDecl :=
  ⟨"face.h", "SUFaceCreate", "SU_RESULT",
   [⟨"face", .output, "SUFaceRef", .pointer⟩,
    ⟨"vertices3d", .input, "const struct SUPoint3D", .array⟩,
    ⟨"outer_loop", .input, "SULoopInputRef", .pointer⟩],
   none,
   [⟨"SU_ERROR_NONE", .onSuccess⟩,
    ⟨"SU_ERROR_NULL_POINTER_INPUT", .isNull ["vertices3d", "outer_loop"]⟩,
    ⟨"SU_ERROR_INVALID_INPUT", .invalidInputData "outer_loop"⟩,
    ⟨"SU_ERROR_GENERIC", .notPlanar "outer_loop" (1 / 1000)⟩,
    ⟨"SU_ERROR_NULL_POINTER_OUTPUT", .isNull ["face"]⟩,
    ⟨"SU_ERROR_OVERWRITE_VALID", .refersToValid "face"⟩]⟩

/-- Prototype at face.h, lines 83-98. -/
def SUFaceCreateSimple : FunctionDecl :=
  ⟨"face.h", "SUFaceCreateSimple", "SU_RESULT",
   [⟨"face", .output, "SUFaceRef", .pointer⟩,
    ⟨"vertices3d", .input, "const struct SUPoint3D", .array⟩,
    ⟨"len", .input, "size_t", .byValue⟩],
   none,
   [⟨"SU_ERROR_NONE", .onSuccess⟩,
    ⟨"SU_ERROR_NULL_POINTER_INPUT", .isNull ["vertices3d"]⟩,
    ⟨"SU_ERROR_NULL_POINTER_OUTPUT", .isNull ["face"]⟩,
    ⟨"SU_ERROR_GENERIC", .notPlanar "vertices3d" (1 / 1000)⟩,
    ⟨"SU_ERROR_OVERWRITE_VALID", .refersToValid "face"⟩]⟩

/-- Prototype at face.h, lines 100-109. -/
def SUFaceGetNormal : FunctionDecl :=
  ⟨"face.h", "SUFaceGetNormal", "SU_RESULT",
   [⟨"face", .input, "SUFaceRef", .byValue⟩,
    ⟨"normal", .output, "struct SUVector3D", .pointer⟩],
   none,
   [⟨"SU_ERROR_NONE", .onSuccess⟩,
    ⟨"SU_ERROR_INVALID_INPUT", .notValidObject ["face"]⟩,
    ⟨"SU_ERROR_NULL_POINTER_OUTPUT", .isNull ["normal"]⟩]⟩

/-- Prototype at face.h, lines 111-119. -/
def SUFaceRelease : FunctionDecl :=
  ⟨"face.h", "SUFaceRelease", "SU_RESULT",
   [⟨"face", .input, "SUFaceRef", .pointer⟩],
   none,
   [⟨"SU_ERROR_NONE", .onSuccess⟩,
    ⟨"SU_ERROR_NULL_POINTER_INPUT", .isNull ["face"]⟩,
    ⟨"SU_ERROR_INVALID_INPUT", .notValidObject ["face"]⟩]⟩

/-- Prototype at face.h, lines 121-130. -/
def SUFaceGetNumEdges : FunctionDecl :=
  ⟨"face.h", "SUFaceGetNumEdges", "SU_RESULT",
   [⟨"face", .input, "SUFaceRef", .byValue⟩,
    ⟨"count", .output, "size_t", .pointer⟩],
   none,
   [⟨"SU_ERROR_NONE", .onSuccess⟩,
    ⟨"SU_ERROR_INVALID_INPUT", .notValidObject ["face"]⟩,
    ⟨"SU_ERROR_NULL_POINTER_OUTPUT", .isNull ["count"]⟩]⟩

/-- Prototype at face.h, lines 132-144. -/
def SUFaceGetEdges : FunctionDecl :=
  ⟨"face.h", "SUFaceGetEdges", "SU_RESULT",
   [⟨"face", .input, "SUFaceRef", .byValue⟩,
    ⟨"len", .input, "size_t", .byValue⟩,
    ⟨"edges", .output, "SUEdgeRef", .array⟩,
    ⟨"count", .output, "size_t", .pointer⟩],
   none,
   [⟨"SU_ERROR_NONE", .onSuccess⟩,
    ⟨"SU_ERROR_INVALID_INPUT", .notValidObject ["face"]⟩,
    ⟨"SU_ERROR_NULL_POINTER_OUTPUT", .isNull ["edges", "count"]⟩]⟩

/-- Prototype at face.h, lines 146-155. -/
def SUFaceGetPlane : FunctionDecl :=
  ⟨"face.h", "SUFaceGetPlane", "SU_RESULT",
   [⟨"face", .input, "SUFaceRef", .byValue⟩,
    ⟨"plane", .output, "struct SUPlane3D", .pointer⟩],
   none,
   [⟨"SU_ERROR_NONE", .onSuccess⟩,
    ⟨"SU_ERROR_INVALID_INPUT", .notValidObject ["face"]⟩,
    ⟨"SU_ERROR_NULL_POINTER_OUTPUT", .isNull ["plane"]⟩]⟩

/-- Prototype at face.h, lines 157-166. -/
def SUFaceGetNumVertices : FunctionDecl :=
  ⟨"face.h", "SUFaceGetNumVertices", "SU_RESULT",
   [⟨"face", .input, "SUFaceRef", .byValue⟩,
    ⟨"count", .output, "size_t", .pointer⟩],
   none,
   [⟨"SU_ERROR_NONE", .onSuccess⟩,
    ⟨"SU_ERROR_INVALID_INPUT", .notValidObject ["face"]⟩,
    ⟨"SU_ERROR_NULL_POINTER_OUTPUT", .isNull ["count"]⟩]⟩

/-- Prototype at face.h, lines 168-180. -/
def SUFaceGetVertices : FunctionDecl :=
  ⟨"face.h", "SUFaceGetVertices", "SU_RESULT",
   [⟨"face", .input, "SUFaceRef", .byValue⟩,
    ⟨"len", .input, "size_t", .byValue⟩,
    ⟨"vertices", .output, "SUVertexRef", .array⟩,
    ⟨"count", .output, "size_t", .pointer⟩],
   none,
   [⟨"SU_ERROR_NONE", .onSuccess⟩,
    ⟨"SU_ERROR_INVALID_INPUT", .notValidObject ["face"]⟩,
    ⟨"SU_ERROR_NULL_POINTER_OUTPUT", .isNull ["vertices", "count"]⟩]⟩

/-- Prototype at face.h, lines 182-191. -/
def SUFaceGetOuterLoop : FunctionDecl :=
  ⟨"face.h", "SUFaceGetOuterLoop", "SU_RESULT",
   [⟨"face", .input, "SUFaceRef", .byValue⟩,
    ⟨"loop", .output, "SULoopRef", .pointer⟩],
   none,
   [⟨"SU_ERROR_NONE", .onSuccess⟩,
    ⟨"SU_ERROR_INVALID_INPUT", .notValidObject ["face"]⟩,
    ⟨"SU_ERROR_NULL_POINTER_OUTPUT", .isNull ["loop"]⟩]⟩

/-- Prototype at face.h, lines 193-202. -/
def SUFaceGetNumInnerLoops : FunctionDecl :=
  ⟨"face.h", "SUFaceGetNumInnerLoops", "SU_RESULT",
   [⟨"face", .input, "SUFaceRef", .byValue⟩,
    ⟨"count", .output, "size_t", .pointer⟩],
   none,
   [⟨"SU_ERROR_NONE", .onSuccess⟩,
    ⟨"SU_ERROR_INVALID_INPUT", .notValidObject ["face"]⟩,
    ⟨"SU_ERROR_NULL_POINTER_OUTPUT", .isNull ["count"]⟩]⟩

/-- Prototype at face.h, lines 204-216. -/
def SUFaceGetInnerLoops : FunctionDecl :=
  ⟨"face.h", "SUFaceGetInnerLoops", "SU_RESULT",
   [⟨"face", .input, "SUFaceRef", .byValue⟩,
    ⟨"len", .input, "size_t", .byValue⟩,
    ⟨"loops", .output, "SULoopRef", .array⟩,
    ⟨"count", .output, "size_t", .pointer⟩],
   none,
   [⟨"SU_ERROR_NONE", .onSuccess⟩,
    ⟨"SU_ERROR_INVALID_INPUT", .notValidObject ["face"]⟩,
    ⟨"SU_ERROR_NULL_POINTER_OUTPUT", .isNull ["loops", "count"]⟩]⟩

/-- Prototype at face.h, lines 218-236. -/
def SUFaceAddInnerLoop : FunctionDecl :=
  ⟨"face.h", "SUFaceAddInnerLoop", "SU_RESULT",
   [⟨"face", .input, "SUFaceRef", .byValue⟩,
    ⟨"vertices3d", .input, "const struct SUPoint3D", .array⟩,
    ⟨"loop", .input, "SULoopInputRef", .pointer⟩],
   none,
   [⟨"SU_ERROR_NONE", .onSuccess⟩,
    ⟨"SU_ERROR_NULL_POINTER_INPUT", .isNull ["vertices3d", "loop"]⟩,
    ⟨"SU_ERROR_INVALID_INPUT", .invalidInputData "loop"⟩,
    ⟨"SU_ERROR_GENERIC", .noParentComponent "face"⟩]⟩

/-- Prototype at face.h, lines 238-247. -/
def SUFaceGetFrontMaterial : FunctionDecl :=
  ⟨"face.h", "SUFaceGetFrontMaterial", "SU_RESULT",
   [⟨"face", .input, "SUFaceRef", .byValue⟩,
    ⟨"material", .output, "SUMaterialRef", .pointer⟩],
   none,
   [⟨"SU_ERROR_NONE", .onSuccess⟩,
    ⟨"SU_ERROR_INVALID_INPUT", .notValidObject ["face"]⟩,
    ⟨"SU_ERROR_NULL_POINTER_OUTPUT", .isNull ["material"]⟩]⟩

/-- Prototype at face.h, lines 249-257. -/
def SUFaceSetFrontMaterial : FunctionDecl :=
  ⟨"face.h", "SUFaceSetFrontMaterial", "SU_RESULT",
   [⟨"face", .input, "SUFaceRef", .byValue⟩,
    ⟨"material", .input, "SUMaterialRef", .byValue⟩],
   none,
   [⟨"SU_ERROR_NONE", .onSuccess⟩,
    ⟨"SU_ERROR_INVALID_INPUT", .notValidObject ["face", "material"]⟩]⟩

/-- Prototype at face.h, lines 259-269. -/
def SUFaceGetBackMaterial : FunctionDecl :=
  ⟨"face.h", "SUFaceGetBackMaterial", "SU_RESULT",
   [⟨"face", .input, "SUFaceRef", .byValue⟩,
    ⟨"material", .output, "SUMaterialRef", .pointer⟩],
   none,
   [⟨"SU_ERROR_NONE", .onSuccess⟩,
    ⟨"SU_ERROR_INVALID_INPUT", .notValidObject ["face"]⟩,
    ⟨"SU_ERROR_NULL_POINTER_OUTPUT", .isNull ["material"]⟩]⟩

/-- Prototype at face.h, lines 271-279. -/
def SUFaceSetBackMaterial : FunctionDecl :=
  ⟨"face.h", "SUFaceSetBackMaterial", "SU_RESULT",
   [⟨"face", .input, "SUFaceRef", .byValue⟩,
    ⟨"material", .input, "SUMaterialRef", .byValue⟩],
   none,
   [⟨"SU_ERROR_NONE", .onSuccess⟩,
    ⟨"SU_ERROR_INVALID_INPUT", .notValidObject ["face", "material"]⟩]⟩

/-- Prototype at face.h, lines 281-293. -/
def SUFaceIsFrontMaterialAffine : FunctionDecl :=
  ⟨"face.h", "SUFaceIsFrontMaterialAffine", "SU_RESULT",
   [⟨"face", .input, "SUFaceRef", .byValue⟩,
    ⟨"is_affine", .output, "bool", .pointer⟩],
   none,
   [⟨"SU_ERROR_NONE", .onSuccess⟩,
    ⟨"SU_ERROR_INVALID_INPUT", .notValidObject ["face"]⟩,
    ⟨"SU_ERROR_NULL_POINTER_OUTPUT", .isNull ["is_affine"]⟩,
    ⟨"SU_ERROR_NO_DATA", .noTexturedMaterial "face" true⟩]⟩

/-- Prototype at face.h, lines 295-307. -/
def SUFaceIsBackMaterialAffine : FunctionDecl :=
  ⟨"face.h", "SUFaceIsBackMaterialAffine", "SU_RESULT",
   [⟨"face", .input, "SUFaceRef", .byValue⟩,
    ⟨"is_affine", .output, "bool", .pointer⟩],
   none,
   [⟨"SU_ERROR_NONE", .onSuccess⟩,
    ⟨"SU_ERROR_INVALID_INPUT", .notValidObject ["face"]⟩,
    ⟨"SU_ERROR_NULL_POINTER_OUTPUT", .isNull ["is_affine"]⟩,
    ⟨"SU_ERROR_NO_DATA", .noTexturedMaterial "face" false⟩]⟩

/-- Prototype at face.h, lines 309-319. -/
def SUFaceGetArea : FunctionDecl :=
  ⟨"face.h", "SUFaceGetArea", "SU_RESULT",
   [⟨"face", .input, "SUFaceRef", .byValue⟩,
    ⟨"area", .output, "double", .pointer⟩],
   none,
   [⟨"SU_ERROR_NONE", .onSuccess⟩,
    ⟨"SU_ERROR_INVALID_INPUT", .notValidObject ["face"]⟩,
    ⟨"SU_ERROR_NULL_POINTER_OUTPUT", .isNull ["area"]⟩]⟩

/-- Prototype at face.h, lines 321-332. -/
def SUFaceIsComplex : FunctionDecl :=
  ⟨"face.h", "SUFaceIsComplex", "SU_RESULT",
   [⟨"face", .input, "SUFaceRef", .byValue⟩,
    ⟨"is_complex", .output, "bool", .pointer⟩],
   none,
   [⟨"SU_ERROR_NONE", .onSuccess⟩,
    ⟨"SU_ERROR_INVALID_INPUT", .notValidObject ["face"]⟩,
    ⟨"SU_ERROR_NULL_POINTER_OUTPUT", .isNull ["is_complex"]⟩]⟩

/-- Prototype at face.h, lines 334-352. -/
def SUFaceGetUVHelper : FunctionDecl :=
  ⟨"face.h", "SUFaceGetUVHelper", "SU_RESULT",
   [⟨"face", .input, "SUFaceRef", .byValue⟩,
    ⟨"front", .input, "bool", .byValue⟩,
    ⟨"back", .input, "bool", .byValue⟩,
    ⟨"texture_writer", .input, "SUTextureWriterRef", .byValue⟩,
    ⟨"uv_helper", .output, "SUUVHelperRef", .pointer⟩],
   none,
   [⟨"SU_ERROR_NONE", .onSuccess⟩,
    ⟨"SU_ERROR_INVALID_INPUT", .notValidObject ["face"]⟩,
    ⟨"SU_ERROR_NULL_POINTER_OUTPUT", .isNull ["uv_helper"]⟩]⟩

/-- Prototype at face.h, lines 354-377. -/
def SUFaceGetUVHelperWithTextureHandle : FunctionDecl :=
  ⟨"face.h", "SUFaceGetUVHelperWithTextureHandle", "SU_RESULT",
   [⟨"face", .input, "SUFaceRef", .byValue⟩,
    ⟨"front", .input, "bool", .byValue⟩,
    ⟨"back", .input, "bool", .byValue⟩,
    ⟨"texture_writer", .input, "SUTextureWriterRef", .byValue⟩,
    ⟨"textureHandle", .input, "long", .byValue⟩,
    ⟨"uv_helper", .output, "SUUVHelperRef", .pointer⟩],
   none,
   [⟨"SU_ERROR_NONE", .onSuccess⟩,
    ⟨"SU_ERROR_INVALID_INPUT", .notValidObject ["face"]⟩,
    ⟨"SU_ERROR_NULL_POINTER_OUTPUT", .isNull ["uv_helper"]⟩]⟩

/-! ### The three headers together -/

/-- The prototypes of `attribute_dictionary.h`, in the order of the header. -/
def attributeDictionaryHeader : List FunctionDecl :=
  [SUAttributeDictionaryGetName, SUAttributeDictionarySetValue,
   SUAttributeDictionaryGetValue, SUAttributeDictionaryGetNumKeys,
   SUAttributeDictionaryGetKeys]

/-- The prototypes of `face.h`, in the order of the header. -/
def faceHeader : List FunctionDecl :=
  [SUFaceToEntity, SUFaceFromEntity, SUFaceToDrawingElement,
   SUFaceFromDrawingElement, SUFaceCreate, SUFaceCreateSimple, SUFaceGetNormal,
   SUFaceRelease, SUFaceGetNumEdges, SUFaceGetEdges, SUFaceGetPlane,
   SUFaceGetNumVertices, SUFaceGetVertices, SUFaceGetOuterLoop,
   SUFaceGetNumInnerLoops, SUFaceGetInnerLoops, SUFaceAddInnerLoop,
   SUFaceGetFrontMaterial, SUFaceSetFrontMaterial, SUFaceGetBackMaterial,
   SUFaceSetBackMaterial, SUFaceIsFrontMaterialAffine,
   SUFaceIsBackMaterialAffine, SUFaceGetArea, SUFaceIsComplex,
   SUFaceGetUVHelper, SUFaceGetUVHelperWithTextureHandle]

/-- The prototypes of `rendering_options.h`, in the order of the header. -/
def renderingOptionsHeader : List FunctionDecl :=
  [SURenderingOptionsSetValue, SURenderingOptionsGetValue]

/-- Every prototype of the three headers. -/
def allFunctions : List FunctionDecl :=
  attributeDictionaryHeader ++ faceHeader ++ renderingOptionsHeader

/-! ## Reading the documentation -/

/-- The eight result codes of the error-code taxonomy, as spelled in the
headers. -/
def resultCodes : List String :=
  ["SU_ERROR_NONE", "SU_ERROR_INVALID_INPUT", "SU_ERROR_NULL_POINTER_INPUT",
   "SU_ERROR_NULL_POINTER_OUTPUT", "SU_ERROR_INVALID_OUTPUT", "SU_ERROR_NO_DATA",
   "SU_ERROR_GENERIC", "SU_ERROR_OVERWRITE_VALID"]

/-- The names of the four conversion functions at the top of `face.h`. -/
def conversionFunctions : List String :=
  ["SUFaceToEntity", "SUFaceFromEntity", "SUFaceToDrawingElement",
   "SUFaceFromDrawingElement"]

/-- The `SU_RESULT` prototypes that have no `@param[out]` parameter. -/
def inputOnlyFunctions : List String :=
  ["SUAttributeDictionarySetValue", "SUFaceRelease", "SUFaceAddInnerLoop",
   "SUFaceSetFrontMaterial", "SUFaceSetBackMaterial",
   "SURenderingOptionsSetValue"]

/-- The object handle types of the three headers. -/
def handleTypes : List String :=
  ["SUFaceRef", "SUAttributeDictionaryRef", "SURenderingOptionsRef"]

/-- Whether the prototype declares the parameter as a pointer or an array. -/
def Param.isPointer (p : Param) : Bool :=
  p.shape != Shape.byValue

/-- The parameters tagged `@param[out]`. -/
def FunctionDecl.outParams (f : FunctionDecl) : List Param :=
  f.params.filter (fun p => p.dir == ParamDir.output)

/-- Whether the prototype returns the result-code type. -/
def FunctionDecl.returnsResultCode (f : FunctionDecl) : Bool :=
  f.retType == "SU_RESULT"

/-- The result codes named by the `@return` list, in order. -/
def FunctionDecl.documentedCodes (f : FunctionDecl) : List String :=
  f.returns.map (fun e => e.code)

/-- Whether the condition is "on success". -/
def Cond.isSuccess : Cond → Bool
  | .onSuccess => true
  | _ => false

/-- The parameters that an "is NULL" condition names. -/
def Cond.nullParams : Cond → List String
  | .isNull ps => ps
  | _ => []

/-- The parameters that an "is not a valid object" condition names. -/
def Cond.notValidParams : Cond → List String
  | .notValidObject ps => ps
  | _ => []

/-- Whether the `@return` list has an item with the given code whose
condition is that the named parameter is NULL. -/
def FunctionDecl.documentsNull (f : FunctionDecl) (code p : String) : Bool :=
  f.returns.any (fun e => e.code == code && e.cond.nullParams.contains p)

/-- Whether the `@return` list has an item with the given code whose
condition is that the named parameter is not a valid object. -/
def FunctionDecl.documentsNotValid (f : FunctionDecl) (code p : String) : Bool :=
  f.returns.any (fun e => e.code == code && e.cond.notValidParams.contains p)

/-- Whether the `@return` list has an item with the given code whose
condition is "on success". -/
def FunctionDecl.documentsSuccess (f : FunctionDecl) (code : String) : Bool :=
  f.returns.any (fun e => e.code == code && e.cond.isSuccess)

/-- The name of the first parameter when it is an object handle passed by
value as an input. -/
def FunctionDecl.firstHandle (f : FunctionDecl) : Option String :=
  match f.params with
  | [] => none
  | p :: _ =>
    if p.dir == ParamDir.input && p.shape == Shape.byValue && handleTypes.contains p.ctype
    then some p.name else none

/-- Modelled from the spec: the bodies of the API functions are missing from
the repository, so the state of one argument at a call is kept only as far as
the documented conditions distinguish it.  For a pointer to an object
reference: the pointer is NULL, it points to an invalid reference, or it
points to a valid object.  For a handle passed by value only `invalid` and
`valid` occur, for a plain pointer or array only `null` and `valid`. -/
inductive ArgState
  | null
  | invalid
  | valid
  deriving DecidableEq, Repr

/-- Modelled from the spec: the bodies of the API functions are missing from
the repository; a call is described by what the documented conditions ask of
it.  `arg` gives the state of each named argument, `invalidData` whether a
loop input contains invalid input data, `points` the points that a parameter
specifies, `planarWithin` the planarity test of the library at a tolerance,
`hasParent` whether the face is associated with a parent component,
`hasValue` whether the dictionary holds a value for the key (taken to be
`true` where the question does not arise), and `textured`
whether the face has a textured material on its front (`true`) or back
(`false`). -/
structure Situation (Point : Type) where
  arg : String → ArgState
  invalidData : String → Bool
  points : String → List Point
  planarWithin : ℚ → List Point → Bool
  hasParent : String → Bool
  hasValue : String → String → Bool
  textured : String → Bool → Bool

/-- Modelled from the spec: whether the failure condition of a `@return` item
holds at a call.  "On success" is not a failure condition. -/
def Cond.failsIn {Point : Type} (s : Situation Point) : Cond → Bool
  | .onSuccess => false
  | .isNull ps => ps.any (fun p => s.arg p == ArgState.null)
  | .notValidObject ps => ps.any (fun p => s.arg p == ArgState.invalid)
  | .invalidInputData p => s.invalidData p
  | .notPlanar p tolerance => !(s.planarWithin tolerance (s.points p))
  | .refersToValid p => s.arg p == ArgState.valid
  | .noParentComponent p => !(s.hasParent p)
  | .noValueForKey dict key => !(s.hasValue dict key)
  | .noTexturedMaterial p front => !(s.textured p front)

/-- Modelled from the spec: the failure codes whose documented condition holds
at a call, in the order of the `@return` list. -/
def FunctionDecl.failureCodes {Point : Type} (f : FunctionDecl) (s : Situation Point) :
    List String :=
  (f.returns.filter (fun e => e.cond.failsIn s)).map (fun e => e.code)

/-- Modelled from the spec: the result codes that the `@return` list assigns
to a call: the failure codes whose condition holds, and the "on success" code
when no failure condition holds. -/
def FunctionDecl.documentedResults {Point : Type} (f : FunctionDecl) (s : Situation Point) :
    List String :=
  match f.failureCodes s with
  | [] => (f.returns.filter (fun e => e.cond.isSuccess)).map (fun e => e.code)
  | c :: cs => c :: cs

/-! ## Failure conditions that exclude one another -/

/-- Modelled from the spec: two conditions of a `@return` list that cannot
hold at the same call because both speak of the state of one and the same
argument, which is NULL, or not a valid object, or already a valid object,
but never two of these.  "On success" is no failure condition and excludes
every condition. -/
def Cond.excludes : Cond → Cond → Bool
  | .onSuccess, _ => true
  | _, .onSuccess => true
  | .isNull [p], .notValidObject [q] => p == q
  | .notValidObject [p], .isNull [q] => p == q
  | .isNull [p], .refersToValid q => p == q
  | .refersToValid p, .isNull [q] => p == q
  | .notValidObject [p], .refersToValid q => p == q
  | .refersToValid p, .notValidObject [q] => p == q
  | _, _ => false

/-- Whether every item of a `@return` list excludes every later item. -/
def pairwiseExcluding : List ReturnEntry → Bool
  | [] => true
  | e :: rest => rest.all (fun d => e.cond.excludes d.cond) && pairwiseExcluding rest

/-- Whether the conditions of the `@return` list exclude one another. -/
def FunctionDecl.exclusiveConditions (f : FunctionDecl) : Bool :=
  pairwiseExcluding f.returns

/-- The `SU_RESULT` functions whose documented failure conditions exclude one
another. -/
def exclusiveFunctions : List String :=
  ["SUFaceRelease", "SUFaceSetFrontMaterial", "SUFaceSetBackMaterial"]

/-- The parameter names under which the `SU_RESULT` functions outside
`exclusiveFunctions` take object handles (`face` is a pointer to a handle in
the two face constructors). -/
def handleParams : List String :=
  ["dictionary", "rendering_options", "face", "value_in", "texture_writer"]

/-- Modelled from the spec: a call in which every object-handle argument is
in the state `handles`, every other pointer or array argument in the state
`pointers`, and the face is or is not associated with a parent component;
loop data, planarity, dictionary values and textures give no failure. -/
def faultyCall (handles pointers : ArgState) (hasParent : Bool) : Situation Unit where
  arg p := if handleParams.contains p then handles else pointers
  invalidData _ := false
  points _ := []
  planarWithin _ _ := true
  hasParent _ := hasParent
  hasValue _ _ := true
  textured _ _ := true

/-- Three calls with more than one argument at fault: invalid handles with
NULL pointers, NULL pointers throughout (for the face constructors, whose
`face` is a pointer), and a valid face without parent component with NULL
pointers. -/
def overlapCalls : List (Situation Unit) :=
  [faultyCall ArgState.invalid ArgState.null true,
   faultyCall ArgState.null ArgState.null true,
   faultyCall ArgState.valid ArgState.null false]

/-! ## A model of the attribute dictionary -/

namespace Model

/-- Modelled from the spec: the dictionary object behind an
`SUAttributeDictionaryRef` is missing from the repository; the header
describes it as "a dictionary type with SUStringRef objects as keys and
SUTypedValueRef objects as values".  It is kept as a list of key-value pairs
with at most one pair per key. -/
abbrev AttributeDictionary (Value : Type) := List (String × Value)

/-- Modelled from the spec: "inserts a key-value pair into an attribute
dictionary object"; the value of a key that is already present is replaced. -/
def setEntry {Value : Type} (key : String) (value : Value) :
    AttributeDictionary Value → AttributeDictionary Value
  | [] => [(key, value)]
  | (k, v) :: rest =>
    if k = key then (key, value) :: rest else (k, v) :: setEntry key value rest

/-- Modelled from the spec: the body of `SUAttributeDictionarySetValue` is
missing from the repository.  A handle is `none` when it is not a valid
object and a `const char*` is `none` when it is NULL.  The documented failure
conditions are tested in the order of the `@return` list; on success the pair
is inserted.  Returns the result code and the dictionary after the call. -/
def SUAttributeDictionarySetValue {Value : Type}
    (dictionary : Option (AttributeDictionary Value)) (key : Option String)
    (value_in : Option Value) : String × Option (AttributeDictionary Value) :=
  match dictionary, value_in, key with
  | none, _, _ => ("SU_ERROR_INVALID_INPUT", dictionary)
  | some _, none, _ => ("SU_ERROR_INVALID_INPUT", dictionary)
  | some _, some _, none => ("SU_ERROR_NULL_POINTER_INPUT", dictionary)
  | some d, some v, some k => ("SU_ERROR_NONE", some (setEntry k v d))

/-- Modelled from the spec: the body of `SUAttributeDictionaryGetValue` is
missing from the repository.  `value_out` is `none` for a NULL pointer,
`some none` for a pointer to an invalid reference and `some (some w)` for a
pointer to a valid typed-value object holding `w`.  The documented failure
conditions are tested in the order of the `@return` list; on success the
value associated with the key is stored in the object `value_out` refers to.
Returns the result code and `value_out` after the call. -/
def SUAttributeDictionaryGetValue {Value : Type}
    (dictionary : Option (AttributeDictionary Value)) (key : Option String)
    (value_out : Option (Option Value)) : String × Option (Option Value) :=
  match dictionary, key, value_out with
  | none, _, _ => ("SU_ERROR_INVALID_INPUT", value_out)
  | some _, none, _ => ("SU_ERROR_NULL_POINTER_INPUT", value_out)
  | some _, some _, none => ("SU_ERROR_NULL_POINTER_OUTPUT", value_out)
  | some _, some _, some none => ("SU_ERROR_INVALID_OUTPUT", value_out)
  | some d, some k, some (some _) =>
    match d.lookup k with
    | none => ("SU_ERROR_NO_DATA", value_out)
    | some v => ("SU_ERROR_NONE", some (some v))

/-- Modelled from the spec: the call of `SUAttributeDictionaryGetValue` with
the given arguments, as the documented conditions see it. -/
def getValueSituation {Value : Type}
    (dictionary : Option (AttributeDictionary Value)) (key : Option String)
    (value_out : Option (Option Value)) : Situation Unit where
  arg p :=
    if p = "dictionary" then (if dictionary.isSome then ArgState.valid else ArgState.invalid)
    else if p = "key" then (if key.isSome then ArgState.valid else ArgState.null)
    else if p = "value_out" then
      (match value_out with
       | none => ArgState.null
       | some none => ArgState.invalid
       | some (some _) => ArgState.valid)
    else ArgState.valid
  invalidData _ := false
  points _ := []
  planarWithin _ _ := true
  hasParent _ := true
  hasValue _ _ :=
    match dictionary, key with
    | some d, some k => (d.lookup k).isSome
    | _, _ => true
  textured _ _ := true

/-- Modelled from the spec: the call of `SUAttributeDictionarySetValue` with
the given arguments, as the documented conditions see it. -/
def setValueSituation {Value : Type}
    (dictionary : Option (AttributeDictionary Value)) (key : Option String)
    (value_in : Option Value) : Situation Unit where
  arg p :=
    if p = "dictionary" then (if dictionary.isSome then ArgState.valid else ArgState.invalid)
    else if p = "key" then (if key.isSome then ArgState.valid else ArgState.null)
    else if p = "value_in" then (if value_in.isSome then ArgState.valid else ArgState.invalid)
    else ArgState.valid
  invalidData _ := false
  points _ := []
  planarWithin _ _ := true
  hasParent _ := true
  hasValue _ _ := true
  textured _ _ := true

/-- Modelled from the spec: the parts of the native library that face creation
relies on and the headers do not describe, taken as parameters: the planarity
test at a tolerance, whether a loop input contains invalid input data, and the
points of the vertex array that a loop input specifies. -/
structure Geometry (Point Loop : Type) where
  planarWithin : ℚ → List Point → Bool
  invalidData : Loop → Bool
  loopPoints : List Point → Loop → List Point

/-- Modelled from the spec: the body of `SUFaceCreate` is missing from the
repository.  `face` is the state of the out-parameter (a NULL pointer, a
pointer to an invalid reference, or a pointer to a face that is already
valid); `vertices3d` and `outer_loop` are `none` when they are NULL.  The
documented failure conditions are tested in the order of the `@return` list.
Returns the result code. -/
def SUFaceCreate {Point Loop : Type} (g : Geometry Point Loop) (face : ArgState)
    (vertices3d : Option (List Point)) (outer_loop : Option Loop) : String :=
  match vertices3d, outer_loop with
  | none, _ => "SU_ERROR_NULL_POINTER_INPUT"
  | some _, none => "SU_ERROR_NULL_POINTER_INPUT"
  | some pts, some loop =>
    if g.invalidData loop then "SU_ERROR_INVALID_INPUT"
    else if !(g.planarWithin (1 / 1000) (g.loopPoints pts loop)) then "SU_ERROR_GENERIC"
    else
      match face with
      | ArgState.null => "SU_ERROR_NULL_POINTER_OUTPUT"
      | ArgState.valid => "SU_ERROR_OVERWRITE_VALID"
      | ArgState.invalid => "SU_ERROR_NONE"

/-- Modelled from the spec: the body of `SUFaceCreateSimple` is missing from
the repository.  `face` is the state of the out-parameter, `vertices3d` is
`none` when it is NULL, and the specified vertices are the first `len` of the
array.  The documented failure conditions are tested in the order of the
`@return` list.  Returns the result code. -/
def SUFaceCreateSimple {Point : Type} (planarWithin : ℚ → List Point → Bool)
    (face : ArgState) (vertices3d : Option (List Point)) (len : Nat) : String :=
  match vertices3d with
  | none => "SU_ERROR_NULL_POINTER_INPUT"
  | some pts =>
    match face with
    | ArgState.null => "SU_ERROR_NULL_POINTER_OUTPUT"
    | ArgState.valid =>
      if !(planarWithin (1 / 1000) (pts.take len)) then "SU_ERROR_GENERIC"
      else "SU_ERROR_OVERWRITE_VALID"
    | ArgState.invalid =>
      if !(planarWithin (1 / 1000) (pts.take len)) then "SU_ERROR_GENERIC"
      else "SU_ERROR_NONE"

/-- Modelled from the spec: the call of `SUFaceCreate` with the given
arguments, as the documented conditions see it.  Where an array or the loop
is NULL there are no points to test, and the planarity and loop-data
conditions are taken not to hold. -/
def createSituation {Point Loop : Type} (g : Geometry Point Loop) (face : ArgState)
    (vertices3d : Option (List Point)) (outer_loop : Option Loop) : Situation Point where
  arg p :=
    if p = "face" then face
    else if p = "vertices3d" then (if vertices3d.isSome then ArgState.valid else ArgState.null)
    else if p = "outer_loop" then (if outer_loop.isSome then ArgState.valid else ArgState.null)
    else ArgState.valid
  invalidData _ := outer_loop.any g.invalidData
  points _ :=
    match vertices3d, outer_loop with
    | some pts, some loop => g.loopPoints pts loop
    | _, _ => []
  planarWithin tolerance ps :=
    if vertices3d.isSome && outer_loop.isSome then g.planarWithin tolerance ps else true
  hasParent _ := true
  hasValue _ _ := true
  textured _ _ := true

/-- Modelled from the spec: the call of `SUFaceCreateSimple` with the given
arguments, as the documented conditions see it.  Where the array is NULL
there are no points to test, and the planarity condition is taken not to
hold. -/
def createSimpleSituation {Point : Type} (planarWithin : ℚ → List Point → Bool)
    (face : ArgState) (vertices3d : Option (List Point)) (len : Nat) : Situation Point where
  arg p :=
    if p = "face" then face
    else if p = "vertices3d" then (if vertices3d.isSome then ArgState.valid else ArgState.null)
    else ArgState.valid
  invalidData _ := false
  points _ :=
    match vertices3d with
    | some pts => pts.take len
    | none => []
  planarWithin tolerance ps :=
    if vertices3d.isSome then planarWithin tolerance ps else true
  hasParent _ := true
  hasValue _ _ := true
  textured _ _ := true

end Model

/-! ## An example call of the face constructors -/

end Slapi

/-! # Theorems -/

namespace Slapi

set_option maxRecDepth 100000

/-! ## Lemmas on the documented contract -/

/-- A failure item whose condition holds contributes its code. -/
theorem mem_failureCodes {Point : Type} (f : FunctionDecl) (s : Situation Point)
    (e : ReturnEntry) (he : e ∈ f.returns) (h : e.cond.failsIn s = true) :
    e.code ∈ f.failureCodes s := by
  unfold FunctionDecl.failureCodes
  exact List.mem_map.mpr ⟨e, List.mem_filter.mpr ⟨he, h⟩, rfl⟩

/-- Every failure code whose condition holds is a documented result. -/
theorem mem_documentedResults_of_mem_failureCodes {Point : Type} (f : FunctionDecl)
    (s : Situation Point) (c : String) (h : c ∈ f.failureCodes s) :
    c ∈ f.documentedResults s := by
  unfold FunctionDecl.documentedResults
  cases hf : f.failureCodes s with
  | nil => rw [hf] at h; cases h
  | cons a as => rw [hf] at h; exact h

/-- When some failure condition holds, the documented results are the failure
codes. -/
theorem documentedResults_eq_failureCodes {Point : Type} (f : FunctionDecl)
    (s : Situation Point) (c : String) (cs : List String)
    (h : f.failureCodes s = c :: cs) : f.documentedResults s = c :: cs := by
  unfold FunctionDecl.documentedResults
  rw [h]

/-- When no failure condition holds, the documented results are the "on
success" codes. -/
theorem documentedResults_of_no_failure {Point : Type} (f : FunctionDecl)
    (s : Situation Point) (h : f.failureCodes s = []) :
    f.documentedResults s =
      (f.returns.filter (fun e => e.cond.isSuccess)).map (fun e => e.code) := by
  unfold FunctionDecl.documentedResults
  rw [h]

/-! ## Face creation and planarity -/

/-- Whenever `face` already refers to a valid object, `SU_ERROR_OVERWRITE_VALID`
is a result that the `@return` lists of both face constructors assign to the
call. -/
theorem overwrite_valid_documented {Point : Type} (s : Situation Point)
    (h : s.arg "face" = ArgState.valid) :
    "SU_ERROR_OVERWRITE_VALID" ∈ SUFaceCreate.documentedResults s ∧
    "SU_ERROR_OVERWRITE_VALID" ∈ SUFaceCreateSimple.documentedResults s := by
  constructor
  · apply mem_documentedResults_of_mem_failureCodes
    exact mem_failureCodes SUFaceCreate s
      ⟨"SU_ERROR_OVERWRITE_VALID", .refersToValid "face"⟩
      (by simp [SUFaceCreate]) (by simp [Cond.failsIn, h])
  · apply mem_documentedResults_of_mem_failureCodes
    exact mem_failureCodes SUFaceCreateSimple s
      ⟨"SU_ERROR_OVERWRITE_VALID", .refersToValid "face"⟩
      (by simp [SUFaceCreateSimple]) (by simp [Cond.failsIn, h])

/-- The result code of the model of `SUFaceCreate` is always one that the
`@return` list of the header assigns to the call. -/
theorem create_code_documented {Point Loop : Type} (g : Model.Geometry Point Loop)
    (face : ArgState) (vertices3d : Option (List Point)) (outer_loop : Option Loop) :
    Model.SUFaceCreate g face vertices3d outer_loop ∈
      SUFaceCreate.documentedResults (Model.createSituation g face vertices3d outer_loop) := by
  cases vertices3d with
  | none =>
    apply mem_documentedResults_of_mem_failureCodes
    cases face <;>
      simp [Model.SUFaceCreate, FunctionDecl.failureCodes, SUFaceCreate, Cond.failsIn,
        Model.createSituation, List.filter_cons]
  | some pts =>
    cases outer_loop with
    | none =>
      apply mem_documentedResults_of_mem_failureCodes
      cases face <;>
        simp [Model.SUFaceCreate, FunctionDecl.failureCodes, SUFaceCreate, Cond.failsIn,
          Model.createSituation, List.filter_cons]
    | some loop =>
      cases hd : g.invalidData loop with
      | true =>
        apply mem_documentedResults_of_mem_failureCodes
        cases face <;> cases hp : g.planarWithin 1000⁻¹ (g.loopPoints pts loop) <;>
          simp [Model.SUFaceCreate, FunctionDecl.failureCodes, SUFaceCreate, Cond.failsIn,
            Model.createSituation, List.filter_cons, hd, hp]
      | false =>
        cases hp : g.planarWithin 1000⁻¹ (g.loopPoints pts loop) with
        | false =>
          apply mem_documentedResults_of_mem_failureCodes
          cases face <;>
            simp [Model.SUFaceCreate, FunctionDecl.failureCodes, SUFaceCreate, Cond.failsIn,
              Model.createSituation, List.filter_cons, hd, hp]
        | true =>
          cases face with
          | null =>
            apply mem_documentedResults_of_mem_failureCodes
            simp [Model.SUFaceCreate, FunctionDecl.failureCodes, SUFaceCreate, Cond.failsIn,
              Model.createSituation, List.filter_cons, hd, hp]
          | valid =>
            apply mem_documentedResults_of_mem_failureCodes
            simp [Model.SUFaceCreate, FunctionDecl.failureCodes, SUFaceCreate, Cond.failsIn,
              Model.createSituation, List.filter_cons, hd, hp]
          | invalid =>
            rw [documentedResults_of_no_failure]
            · simp [Model.SUFaceCreate, SUFaceCreate, Cond.isSuccess, List.filter_cons, hd, hp]
            · simp [FunctionDecl.failureCodes, SUFaceCreate, Cond.failsIn,
                Model.createSituation, List.filter_cons, hd, hp]

/-- The result code of the model of `SUFaceCreateSimple` is always one that
the `@return` list of the header assigns to the call. -/
theorem createSimple_code_documented {Point : Type} (planarWithin : ℚ → List Point → Bool)
    (face : ArgState) (vertices3d : Option (List Point)) (len : Nat) :
    Model.SUFaceCreateSimple planarWithin face vertices3d len ∈
      SUFaceCreateSimple.documentedResults
        (Model.createSimpleSituation planarWithin face vertices3d len) := by
  cases vertices3d with
  | none =>
    apply mem_documentedResults_of_mem_failureCodes
    cases face <;>
      simp [Model.SUFaceCreateSimple, FunctionDecl.failureCodes, SUFaceCreateSimple,
        Cond.failsIn, Model.createSimpleSituation, List.filter_cons]
  | some pts =>
    cases hp : planarWithin 1000⁻¹ (List.take len pts) with
    | false =>
      apply mem_documentedResults_of_mem_failureCodes
      cases face <;>
        simp [Model.SUFaceCreateSimple, FunctionDecl.failureCodes, SUFaceCreateSimple,
          Cond.failsIn, Model.createSimpleSituation, List.filter_cons, hp]
    | true =>
      cases face with
      | null =>
        apply mem_documentedResults_of_mem_failureCodes
        simp [Model.SUFaceCreateSimple, FunctionDecl.failureCodes, SUFaceCreateSimple,
          Cond.failsIn, Model.createSimpleSituation, List.filter_cons, hp]
      | valid =>
        apply mem_documentedResults_of_mem_failureCodes
        simp [Model.SUFaceCreateSimple, FunctionDecl.failureCodes, SUFaceCreateSimple,
          Cond.failsIn, Model.createSimpleSituation, List.filter_cons, hp]
      | invalid =>
        rw [documentedResults_of_no_failure]
        · simp [Model.SUFaceCreateSimple, SUFaceCreateSimple, Cond.isSuccess,
            List.filter_cons, hp]
        · simp [FunctionDecl.failureCodes, SUFaceCreateSimple, Cond.failsIn,
            Model.createSimpleSituation, List.filter_cons, hp]

/-- C2, as stated, fails at `SUFaceToEntity`: the prototype is declared in
`face.h`, returns an `SUEntityRef` and not `SU_RESULT`, its `@return` text
says that the converted reference is returned, and it has no out-parameter;
so not every declared function returns `SU_RESULT` and returns no value
directly. -/
theorem SUFaceToEntity_returns_reference_directly :
    (∃ f ∈ allFunctions, f.name = "SUFaceToEntity" ∧ f.retType = "SUEntityRef" ∧
      f.returnsResultCode = false ∧ f.docReturnsRef = some "SUEntityRef" ∧
      f.outParams.isEmpty = true) ∧
    ¬ (∀ f ∈ allFunctions, f.returnsResultCode = true ∧ f.docReturnsRef = none) := by
  decide

/-- C2, amended: every function declared in the three headers other than the
four face conversion functions returns `SU_RESULT`, returns no value directly,
has only pointer or array parameters as `@param[out]`, and has such an
out-parameter unless it is one of the six input-only functions; each of the
four conversion functions returns a reference directly, documents no result
code and has no out-parameter. -/
theorem result_code_convention (f : FunctionDecl) (hf : f ∈ allFunctions) :
    (f.name ∈ conversionFunctions →
      f.returnsResultCode = false ∧ f.docReturnsRef.isSome = true ∧
      f.retType ∈ ["SUEntityRef", "SUFaceRef", "SUDrawingElementRef"] ∧
      f.outParams.isEmpty = true ∧ f.returns.isEmpty = true) ∧
    (f.name ∉ conversionFunctions →
      f.returnsResultCode = true ∧ f.docReturnsRef = none ∧
      (∀ p ∈ f.outParams, p.isPointer = true) ∧
      (f.outParams.isEmpty = true ↔ f.name ∈ inputOnlyFunctions)) := by
  revert f
  decide

/-- C2, amended, at `SUFaceGetNormal` and at `SUFaceFromEntity`. -/
theorem result_code_convention_witness :
    (SUFaceGetNormal.returnsResultCode = true ∧ SUFaceGetNormal.docReturnsRef = none ∧
      (∀ p ∈ SUFaceGetNormal.outParams, p.isPointer = true) ∧
      (SUFaceGetNormal.outParams.isEmpty = true ↔
        SUFaceGetNormal.name ∈ inputOnlyFunctions)) ∧
    (SUFaceFromEntity.returnsResultCode = false ∧
      SUFaceFromEntity.docReturnsRef.isSome = true ∧
      SUFaceFromEntity.retType ∈ ["SUEntityRef", "SUFaceRef", "SUDrawingElementRef"] ∧
      SUFaceFromEntity.outParams.isEmpty = true ∧
      SUFaceFromEntity.returns.isEmpty = true) :=
  ⟨(result_code_convention SUFaceGetNormal
      (by simp [allFunctions, faceHeader])).2 (by decide),
   (result_code_convention SUFaceFromEntity
      (by simp [allFunctions, faceHeader])).1 (by decide)⟩

/-- C3: the result codes named in the `@return` lists of the three headers are
exactly the eight codes of the taxonomy: every documented code is one of the
eight, each of the eight is documented by some function, and every
`SU_RESULT` function documents `SU_ERROR_NONE` with the condition "on
success". -/
theorem documented_codes_exactly_eight :
    resultCodes.length = 8 ∧ resultCodes.Nodup ∧
    (∀ f ∈ allFunctions, ∀ e ∈ f.returns, e.code ∈ resultCodes) ∧
    (∀ c ∈ resultCodes, ∃ f ∈ allFunctions, c ∈ f.documentedCodes) ∧
    (∀ f ∈ allFunctions, f.returnsResultCode = true →
      f.documentsSuccess "SU_ERROR_NONE" = true) := by
  decide

/-! ## The rendering-option tables -/

/-- C4: the option table of `SURenderingOptionsGetValue` has 56 rows, no
option name occurs in two rows, every row's kind is one of
`SUTypedValueType_Color`, `SUTypedValueType_Int32`, `SUTypedValueType_Bool`
and `SUTypedValueType_Double`, and looking an option name up in the table
gives the kind of its row. -/
theorem rendering_option_table_well_defined :
    renderingOptionTable.length = 56 ∧
    (renderingOptionTable.map Prod.fst).Nodup ∧
    (∀ r ∈ renderingOptionTable, r.2 ∈ renderingValueKinds) ∧
    (∀ r ∈ renderingOptionTable, renderingOptionValueType r.1 = some r.2) := by
  decide

/-! ## Null pointers and invalid handles -/

/-- C5: every `SU_RESULT` function documents `SU_ERROR_NULL_POINTER_OUTPUT`
with the condition that the parameter is NULL for each of its `@param[out]`
parameters (all of which are pointers or arrays), and
`SU_ERROR_NULL_POINTER_INPUT` for each pointer or array parameter marked
`@param[in]`; those input parameters are key, vertices3d, outer_loop, loop,
and face in `SUFaceRelease`. -/
theorem null_pointer_codes_documented (f : FunctionDecl) (hf : f ∈ allFunctions)
    (hr : f.returnsResultCode = true) :
    (∀ p ∈ f.params, p.dir = ParamDir.output →
      p.isPointer = true ∧ f.documentsNull "SU_ERROR_NULL_POINTER_OUTPUT" p.name = true) ∧
    (∀ p ∈ f.params, p.dir = ParamDir.input → p.isPointer = true →
      f.documentsNull "SU_ERROR_NULL_POINTER_INPUT" p.name = true ∧
      (p.name ∈ ["key", "vertices3d", "outer_loop", "loop"] ∨
        (p.name = "face" ∧ f.name = "SUFaceRelease"))) := by
  revert f
  decide

/-- C5 at `SUFaceCreate`: NULL `face` is documented as
`SU_ERROR_NULL_POINTER_OUTPUT`, NULL `vertices3d` and NULL `outer_loop` as
`SU_ERROR_NULL_POINTER_INPUT`. -/
theorem null_pointer_codes_documented_witness :
    SUFaceCreate.documentsNull "SU_ERROR_NULL_POINTER_OUTPUT" "face" = true ∧
    SUFaceCreate.documentsNull "SU_ERROR_NULL_POINTER_INPUT" "vertices3d" = true ∧
    SUFaceCreate.documentsNull "SU_ERROR_NULL_POINTER_INPUT" "outer_loop" = true :=
  have h := null_pointer_codes_documented SUFaceCreate
    (by simp [allFunctions, faceHeader]) (by decide)
  ⟨(h.1 ⟨"face", .output, "SUFaceRef", .pointer⟩ (by simp [SUFaceCreate]) rfl).2,
   (h.2 ⟨"vertices3d", .input, "const struct SUPoint3D", .array⟩
      (by simp [SUFaceCreate]) rfl rfl).1,
   (h.2 ⟨"outer_loop", .input, "SULoopInputRef", .pointer⟩
      (by simp [SUFaceCreate]) rfl rfl).1⟩

/-- C6 fails at `SUFaceAddInnerLoop`: the function returns `SU_RESULT` and
takes the handle `face` by value as its first input, but no item of its
`@return` list gives `SU_ERROR_INVALID_INPUT` (or any other code) for a `face`
that is not a valid object, its only `SU_ERROR_INVALID_INPUT` item being
"loop contains invalid input data"; every other `SU_RESULT` function that
takes a handle by value first documents `SU_ERROR_INVALID_INPUT` for it. -/
theorem SUFaceAddInnerLoop_invalid_face_undocumented :
    (∃ f ∈ allFunctions, f.name = "SUFaceAddInnerLoop" ∧ f.returnsResultCode = true ∧
      f.firstHandle = some "face" ∧
      f.documentsNotValid "SU_ERROR_INVALID_INPUT" "face" = false ∧
      (∀ c ∈ resultCodes, f.documentsNotValid c "face" = false)) ∧
    (∀ f ∈ allFunctions, f.returnsResultCode = true → f.name ≠ "SUFaceAddInnerLoop" →
      f.firstHandle.all (fun h => f.documentsNotValid "SU_ERROR_INVALID_INPUT" h) = true) ∧
    ((allFunctions.filter (fun f => f.returnsResultCode && f.firstHandle.isSome)).length
      = 27) := by
  decide

/-! ## The face conversion functions -/

/-- C9 fails at `SUFaceToDrawingElement`: its `@return` text says that an
`SUEntityRef` is returned while the prototype returns an
`SUDrawingElementRef`; for the other three conversion functions the
documented reference type is the declared return type. -/
theorem SUFaceToDrawingElement_documents_other_type :
    SUFaceToDrawingElement.docReturnsRef = some "SUEntityRef" ∧
    SUFaceToDrawingElement.retType = "SUDrawingElementRef" ∧
    SUFaceToDrawingElement.docReturnsRef ≠ some SUFaceToDrawingElement.retType ∧
    SUFaceToEntity.docReturnsRef = some SUFaceToEntity.retType ∧
    SUFaceFromEntity.docReturnsRef = some SUFaceFromEntity.retType ∧
    SUFaceFromDrawingElement.docReturnsRef = some SUFaceFromDrawingElement.retType ∧
    (allFunctions.filter (fun f => conversionFunctions.contains f.name)).map
      (fun f => f.name) = conversionFunctions := by
  decide

/-! ## Enumerated rendering options -/

/-- C10: the options of the enumerated-values table are EdgeColorMode,
EdgeDisplayMode, RenderMode, FaceColorMode and EdgeType; each of them is a row
of the option table with value type `SUTypedValueType_Int32`, and the values
listed for each are the consecutive integers from 0, none listed twice. -/
theorem enumerated_options_int32_consecutive :
    (enumValues renderingEnumTable).map Prod.fst =
      ["EdgeColorMode", "EdgeDisplayMode", "RenderMode", "FaceColorMode", "EdgeType"] ∧
    (∀ g ∈ enumValues renderingEnumTable,
      renderingOptionValueType g.1 = some "SUTypedValueType_Int32" ∧
      g.2 = List.range g.2.length ∧ g.2.Nodup) ∧
    ((enumValues renderingEnumTable).map (fun g => g.2.length)).sum
      = renderingEnumTable.length := by
  decide

/-! ## The attribute dictionary -/

/-- Looking a key up after it was set gives the value that was set. -/
theorem lookup_setEntry_self {Value : Type} (key : String) (value : Value)
    (d : Model.AttributeDictionary Value) :
    List.lookup key (Model.setEntry key value d) = some value := by
  induction d with
  | nil => simp [Model.setEntry, List.lookup]
  | cons kv rest ih =>
    obtain ⟨k, v⟩ := kv
    by_cases hk : k = key
    · simp [Model.setEntry, hk, List.lookup]
    · have hne : (key == k) = false := by
        simp only [beq_eq_false_iff_ne, ne_eq]
        exact fun h => hk h.symm
      simp [Model.setEntry, hk, List.lookup, hne, ih]

/-- Setting a key leaves the values of the other keys as they were. -/
theorem lookup_setEntry_other {Value : Type} (key other : String) (value : Value)
    (d : Model.AttributeDictionary Value) (h : other ≠ key) :
    List.lookup other (Model.setEntry key value d) = List.lookup other d := by
  induction d with
  | nil =>
    have hne : (other == key) = false := by simpa using h
    simp [Model.setEntry, List.lookup, hne]
  | cons kv rest ih =>
    obtain ⟨k, v⟩ := kv
    by_cases hk : k = key
    · subst hk
      have hne : (other == k) = false := by simpa using h
      simp [Model.setEntry, List.lookup, hne]
    · by_cases ho : other = k
      · simp [Model.setEntry, hk, List.lookup, ho]
      · have hne : (other == k) = false := by simpa using ho
        simp [Model.setEntry, hk, List.lookup, hne, ih]

/-- The result code of the model of `SUAttributeDictionaryGetValue` is always
one that the `@return` list of the header assigns to the call. -/
theorem getValue_code_documented {Value : Type}
    (dictionary : Option (Model.AttributeDictionary Value)) (key : Option String)
    (value_out : Option (Option Value)) :
    (Model.SUAttributeDictionaryGetValue dictionary key value_out).1 ∈
      SUAttributeDictionaryGetValue.documentedResults
        (Model.getValueSituation dictionary key value_out) := by
  cases dictionary with
  | none =>
    apply mem_documentedResults_of_mem_failureCodes
    simp [Model.SUAttributeDictionaryGetValue, FunctionDecl.failureCodes,
      SUAttributeDictionaryGetValue, Cond.failsIn, Model.getValueSituation, List.filter_cons]
  | some d =>
    cases key with
    | none =>
      apply mem_documentedResults_of_mem_failureCodes
      simp [Model.SUAttributeDictionaryGetValue, FunctionDecl.failureCodes,
        SUAttributeDictionaryGetValue, Cond.failsIn, Model.getValueSituation, List.filter_cons]
    | some k =>
      cases value_out with
      | none =>
        apply mem_documentedResults_of_mem_failureCodes
        simp [Model.SUAttributeDictionaryGetValue, FunctionDecl.failureCodes,
          SUAttributeDictionaryGetValue, Cond.failsIn, Model.getValueSituation,
          List.filter_cons]
      | some target =>
        cases target with
        | none =>
          apply mem_documentedResults_of_mem_failureCodes
          simp [Model.SUAttributeDictionaryGetValue, FunctionDecl.failureCodes,
            SUAttributeDictionaryGetValue, Cond.failsIn, Model.getValueSituation,
            List.filter_cons]
        | some w =>
          cases hl : List.lookup k d with
          | none =>
            apply mem_documentedResults_of_mem_failureCodes
            simp [Model.SUAttributeDictionaryGetValue, FunctionDecl.failureCodes,
              SUAttributeDictionaryGetValue, Cond.failsIn, Model.getValueSituation,
              List.filter_cons, hl]
          | some v =>
            rw [documentedResults_of_no_failure]
            · simp [Model.SUAttributeDictionaryGetValue, SUAttributeDictionaryGetValue,
                Cond.isSuccess, List.filter_cons, hl]
            · simp [FunctionDecl.failureCodes, SUAttributeDictionaryGetValue, Cond.failsIn,
                Model.getValueSituation, List.filter_cons, hl]

/-- The result code of the model of `SUAttributeDictionarySetValue` is always
one that the `@return` list of the header assigns to the call. -/
theorem setValue_code_documented {Value : Type}
    (dictionary : Option (Model.AttributeDictionary Value)) (key : Option String)
    (value_in : Option Value) :
    (Model.SUAttributeDictionarySetValue dictionary key value_in).1 ∈
      SUAttributeDictionarySetValue.documentedResults
        (Model.setValueSituation dictionary key value_in) := by
  cases dictionary with
  | none =>
    apply mem_documentedResults_of_mem_failureCodes
    simp [Model.SUAttributeDictionarySetValue, FunctionDecl.failureCodes,
      SUAttributeDictionarySetValue, Cond.failsIn, Model.setValueSituation, List.filter_cons]
  | some d =>
    cases value_in with
    | none =>
      apply mem_documentedResults_of_mem_failureCodes
      simp [Model.SUAttributeDictionarySetValue, FunctionDecl.failureCodes,
        SUAttributeDictionarySetValue, Cond.failsIn, Model.setValueSituation, List.filter_cons]
    | some v =>
      cases key with
      | none =>
        apply mem_documentedResults_of_mem_failureCodes
        simp [Model.SUAttributeDictionarySetValue, FunctionDecl.failureCodes,
          SUAttributeDictionarySetValue, Cond.failsIn, Model.setValueSituation,
          List.filter_cons]
      | some k =>
        rw [documentedResults_of_no_failure]
        · simp [Model.SUAttributeDictionarySetValue, SUAttributeDictionarySetValue,
            Cond.isSuccess, List.filter_cons]
        · simp [FunctionDecl.failureCodes, SUAttributeDictionarySetValue, Cond.failsIn,
            Model.setValueSituation, List.filter_cons]

/-- For a valid dictionary, a key that is not NULL and a valid `value_out`,
the `@return` list of `SUAttributeDictionaryGetValue` assigns exactly
`SU_ERROR_NO_DATA` when the dictionary holds no value for the key and exactly
`SU_ERROR_NONE` when it holds one. -/
theorem getValue_documented_results {Value : Type} (d : Model.AttributeDictionary Value)
    (k : String) (w : Value) :
    (List.lookup k d = none →
      SUAttributeDictionaryGetValue.documentedResults
        (Model.getValueSituation (some d) (some k) (some (some w))) = ["SU_ERROR_NO_DATA"]) ∧
    (∀ v, List.lookup k d = some v →
      SUAttributeDictionaryGetValue.documentedResults
        (Model.getValueSituation (some d) (some k) (some (some w))) = ["SU_ERROR_NONE"]) := by
  constructor
  · intro hl
    apply documentedResults_eq_failureCodes
    simp [FunctionDecl.failureCodes, SUAttributeDictionaryGetValue, Cond.failsIn,
      Model.getValueSituation, List.filter_cons, hl]
  · intro v hl
    rw [documentedResults_of_no_failure]
    · simp [SUAttributeDictionaryGetValue, Cond.isSuccess, List.filter_cons]
    · simp [FunctionDecl.failureCodes, SUAttributeDictionaryGetValue, Cond.failsIn,
        Model.getValueSituation, List.filter_cons, hl]

/-- C7: for every valid dictionary, key that is not NULL and valid `value_out`
that is not NULL, `SUAttributeDictionaryGetValue` returns `SU_ERROR_NO_DATA`
when the dictionary holds no value for the key (and that is the one code the
`@return` list assigns), and returns `SU_ERROR_NONE` with the associated value
in `value_out` when it holds one (again the one documented code); in
particular, after `SUAttributeDictionarySetValue` returned `SU_ERROR_NONE`
for that key, it returns `SU_ERROR_NONE` with the value that was set. -/
theorem getValue_no_data_or_value {Value : Type} (d : Model.AttributeDictionary Value)
    (k : String) (w : Value) :
    (List.lookup k d = none →
      (Model.SUAttributeDictionaryGetValue (some d) (some k) (some (some w))).1
        = "SU_ERROR_NO_DATA" ∧
      SUAttributeDictionaryGetValue.documentedResults
        (Model.getValueSituation (some d) (some k) (some (some w))) = ["SU_ERROR_NO_DATA"]) ∧
    (∀ v, List.lookup k d = some v →
      Model.SUAttributeDictionaryGetValue (some d) (some k) (some (some w))
        = ("SU_ERROR_NONE", some (some v)) ∧
      SUAttributeDictionaryGetValue.documentedResults
        (Model.getValueSituation (some d) (some k) (some (some w))) = ["SU_ERROR_NONE"]) ∧
    (∀ (dictionary after : Option (Model.AttributeDictionary Value))
        (value_in : Option Value),
      Model.SUAttributeDictionarySetValue dictionary (some k) value_in
        = ("SU_ERROR_NONE", after) →
      ∃ v, value_in = some v ∧
        Model.SUAttributeDictionaryGetValue after (some k) (some (some w))
          = ("SU_ERROR_NONE", some (some v))) := by
  refine ⟨?_, ?_, ?_⟩
  · intro h
    exact ⟨by simp [Model.SUAttributeDictionaryGetValue, h],
      (getValue_documented_results d k w).1 h⟩
  · intro v h
    exact ⟨by simp [Model.SUAttributeDictionaryGetValue, h],
      (getValue_documented_results d k w).2 v h⟩
  · intro dictionary after value_in h
    cases dictionary with
    | none => simp [Model.SUAttributeDictionarySetValue] at h
    | some d0 =>
      cases value_in with
      | none => simp [Model.SUAttributeDictionarySetValue] at h
      | some v =>
        simp [Model.SUAttributeDictionarySetValue] at h
        subst h
        exact ⟨v, rfl, by simp [Model.SUAttributeDictionaryGetValue, lookup_setEntry_self]⟩

/-- C7 on the dictionary that holds 3 under "width": "height" has no value,
"width" is retrieved as 3, and after setting "height" to 7 it is retrieved as
7. -/
theorem getValue_no_data_or_value_witness :
    (Model.SUAttributeDictionaryGetValue (some [("width", 3)]) (some "height")
        (some (some 0))).1 = "SU_ERROR_NO_DATA" ∧
    Model.SUAttributeDictionaryGetValue (some [("width", 3)]) (some "width")
        (some (some 0)) = ("SU_ERROR_NONE", some (some 3)) ∧
    (∃ v, some 7 = some v ∧
      Model.SUAttributeDictionaryGetValue (some [("width", 3), ("height", 7)])
        (some "height") (some (some 0)) = ("SU_ERROR_NONE", some (some v))) :=
  ⟨((getValue_no_data_or_value [("width", 3)] "height" 0).1 (by decide)).1,
   ((getValue_no_data_or_value [("width", 3)] "width" 0).2.1 3 (by decide)).1,
   (getValue_no_data_or_value [("width", 3)] "height" 0).2.2
     (some [("width", 3)]) (some [("width", 3), ("height", 7)]) (some 7) (by decide)⟩

/-! ## Do the documented conditions determine the result code? -/

/-- Every `SU_RESULT` function has exactly one "on success" item, and its code
is `SU_ERROR_NONE`. -/
theorem success_codes_eq (f : FunctionDecl) (hf : f ∈ allFunctions)
    (hr : f.returnsResultCode = true) :
    (f.returns.filter (fun e => e.cond.isSuccess)).map (fun e => e.code)
      = ["SU_ERROR_NONE"] := by
  revert f
  decide

/-- Every failure code that holds at a call is one of the eight result codes. -/
theorem failureCodes_subset_resultCodes {Point : Type} (f : FunctionDecl)
    (hf : f ∈ allFunctions) (s : Situation Point) (c : String)
    (hc : c ∈ f.failureCodes s) : c ∈ resultCodes := by
  have hall : ∀ g ∈ allFunctions, ∀ e ∈ g.returns, e.code ∈ resultCodes := by decide
  unfold FunctionDecl.failureCodes at hc
  obtain ⟨e, he, rfl⟩ := List.mem_map.mp hc
  exact hall f hf e (List.mem_filter.mp he).1

/-- C11, as stated, fails at `SUAttributeDictionaryGetValue` called with a
valid dictionary, a NULL `key` and a NULL `value_out`: two documented failure
conditions hold at once, and the `@return` list assigns the two different
codes `SU_ERROR_NULL_POINTER_INPUT` and `SU_ERROR_NULL_POINTER_OUTPUT` to the
call; so it is not true that at most one documented failure condition holds
for every input of every `SU_RESULT` function. -/
theorem GetValue_null_key_and_null_output_two_codes :
    SUAttributeDictionaryGetValue.failureCodes
        (Model.getValueSituation (some ([] : Model.AttributeDictionary Nat)) none none)
      = ["SU_ERROR_NULL_POINTER_INPUT", "SU_ERROR_NULL_POINTER_OUTPUT"] ∧
    SUAttributeDictionaryGetValue.documentedResults
        (Model.getValueSituation (some ([] : Model.AttributeDictionary Nat)) none none)
      = ["SU_ERROR_NULL_POINTER_INPUT", "SU_ERROR_NULL_POINTER_OUTPUT"] ∧
    ¬ (∀ f ∈ allFunctions, f.returnsResultCode = true →
        ∀ s : Situation Unit, (f.failureCodes s).length ≤ 1) := by
  have h1 : SUAttributeDictionaryGetValue.failureCodes
        (Model.getValueSituation (some ([] : Model.AttributeDictionary Nat)) none none)
      = ["SU_ERROR_NULL_POINTER_INPUT", "SU_ERROR_NULL_POINTER_OUTPUT"] := by
    decide
  refine ⟨h1, documentedResults_eq_failureCodes _ _ _ _ h1, ?_⟩
  intro h
  have h2 := h SUAttributeDictionaryGetValue (by simp [allFunctions, attributeDictionaryHeader])
    (by decide) (Model.getValueSituation (some ([] : Model.AttributeDictionary Nat)) none none)
  rw [h1] at h2
  simp at h2

/-- Conditions that exclude one another never hold at the same call. -/
theorem excludes_sound {Point : Type} (s : Situation Point) (c d : Cond)
    (h : c.excludes d = true) (hc : c.failsIn s = true) : d.failsIn s = false := by
  unfold Cond.excludes at h
  split at h <;> simp_all [Cond.failsIn]

/-- In a list of items that exclude one another at most one item holds at a
call. -/
theorem filter_length_le_one {Point : Type} (s : Situation Point) (l : List ReturnEntry)
    (h : pairwiseExcluding l = true) :
    (l.filter (fun e => e.cond.failsIn s)).length ≤ 1 := by
  induction l with
  | nil => simp
  | cons e rest ih =>
    simp only [pairwiseExcluding, Bool.and_eq_true, List.all_eq_true] at h
    by_cases he : e.cond.failsIn s = true
    · have hrest : rest.filter (fun d => d.cond.failsIn s) = [] := by
        rw [List.filter_eq_nil_iff]
        intro d hd
        simp [excludes_sound s e.cond d.cond (h.1 d hd) he]
      simp [List.filter_cons, he, hrest]
    · simp only [List.filter_cons, he]
      exact ih h.2

/-- The functions of the three headers whose `@return` items exclude one
another are, among the `SU_RESULT` functions, exactly the three of
`exclusiveFunctions`. -/
theorem exclusiveConditions_iff (f : FunctionDecl) (hf : f ∈ allFunctions) :
    f.exclusiveConditions = true ↔
      (f.returnsResultCode = true → f.name ∈ exclusiveFunctions) := by
  revert f
  decide

/-- Every `SU_RESULT` function outside `exclusiveFunctions` has, among the
three calls of `overlapCalls`, one to which its `@return` list assigns two
different failure codes. -/
theorem overlap_exists (f : FunctionDecl) (hf : f ∈ allFunctions)
    (hr : f.returnsResultCode = true) (hn : f.name ∉ exclusiveFunctions) :
    ∃ s ∈ overlapCalls, ∃ c1 ∈ f.failureCodes s, ∃ c2 ∈ f.failureCodes s, c1 ≠ c2 := by
  revert f
  decide

/-- C11, amended: for `SUFaceRelease`, `SUFaceSetFrontMaterial` and
`SUFaceSetBackMaterial` and every input, at most one documented failure
condition holds, so the `@return` list never assigns two different result
codes to a call; for every other `SU_RESULT` function of the three headers
the documented failure conditions are not mutually exclusive: there is a call
at which two of them hold and the list assigns two different codes. -/
theorem exclusive_failure_conditions (f : FunctionDecl) (hf : f ∈ allFunctions)
    (hr : f.returnsResultCode = true) :
    (f.name ∈ exclusiveFunctions →
      ∀ (Point : Type) (s : Situation Point),
        (f.failureCodes s).length ≤ 1 ∧
        ∀ c1 ∈ f.documentedResults s, ∀ c2 ∈ f.documentedResults s, c1 = c2) ∧
    (f.name ∉ exclusiveFunctions →
      ∃ s ∈ overlapCalls, ∃ c1 ∈ f.failureCodes s, ∃ c2 ∈ f.failureCodes s, c1 ≠ c2) := by
  refine ⟨?_, overlap_exists f hf hr⟩
  intro hn Point s
  have hex : f.exclusiveConditions = true := (exclusiveConditions_iff f hf).mpr (fun _ => hn)
  have hlen : (f.failureCodes s).length ≤ 1 := by
    unfold FunctionDecl.failureCodes
    rw [List.length_map]
    exact filter_length_le_one s f.returns hex
  refine ⟨hlen, ?_⟩
  cases hfc : f.failureCodes s with
  | nil =>
    rw [documentedResults_of_no_failure f s hfc, success_codes_eq f hf hr]
    intro c1 h1 c2 h2
    simp only [List.mem_singleton] at h1 h2
    rw [h1, h2]
  | cons c cs =>
    cases cs with
    | nil =>
      rw [documentedResults_eq_failureCodes f s c [] hfc]
      intro c1 h1 c2 h2
      simp only [List.mem_singleton] at h1 h2
      rw [h1, h2]
    | cons c2 cs2 =>
      rw [hfc] at hlen
      simp at hlen

/-- C11, amended, at `SUFaceRelease` called with a NULL `face` (at most one
failure condition holds) and at `SUFaceGetNormal` (one of the three example
calls is assigned two different codes). -/
theorem exclusive_failure_conditions_witness :
    (SUFaceRelease.failureCodes
        (faultyCall ArgState.null ArgState.null true)).length ≤ 1 ∧
    (∃ s ∈ overlapCalls, ∃ c1 ∈ SUFaceGetNormal.failureCodes s,
      ∃ c2 ∈ SUFaceGetNormal.failureCodes s, c1 ≠ c2) :=
  ⟨((exclusive_failure_conditions SUFaceRelease (by simp [allFunctions, faceHeader])
      (by decide)).1 (by decide) Unit (faultyCall ArgState.null ArgState.null true)).1,
   (exclusive_failure_conditions SUFaceGetNormal (by simp [allFunctions, faceHeader])
      (by decide)).2 (by decide)⟩


end Slapi
